import Mathlib

/-!
Shallow embedding of the Session & Credential Lifecycle Subsystem of the
user-service repository, together with theorems settling the claims about
it.  Pure functions of the source are translated to Lean functions;
stateful code is explicit state passing over a system-state record;
fallible code returns `Except`.  Times are integers (milliseconds or
seconds, as in the source); machine bytes are naturals below 256.
-/

set_option autoImplicit false
set_option maxRecDepth 40000

namespace UserService

instance exceptDecEq {ε α : Type} [DecidableEq ε] [DecidableEq α] :
    DecidableEq (Except ε α) := fun x y =>
  match x, y with
  | .ok a, .ok b =>
    if h : a = b then .isTrue (by rw [h])
    else .isFalse (by intro hc; cases hc; exact h rfl)
  | .error a, .error b =>
    if h : a = b then .isTrue (by rw [h])
    else .isFalse (by intro hc; cases hc; exact h rfl)
  | .ok _, .error _ => .isFalse (by intro hc; cases hc)
  | .error _, .ok _ => .isFalse (by intro hc; cases hc)

/-- Byte sequences (Node `Buffer` contents): naturals below 256.
Token strings that only ever flow through the cipher are modelled by
their byte sequences. -/
abbrev Bytes := List Nat

/-- Well-formedness of a byte sequence: every element is an actual byte. -/
def BytesWF (bs : Bytes) : Prop := ∀ b ∈ bs, b < 256

instance : DecidablePred BytesWF := fun bs =>
  List.decidableBAll (fun b => b < 256) bs

/-- The error taxonomy of the service, one constructor per distinct kind of
`Error` the source throws (the source uses plain `Error` objects; the spec
names them NotFoundError, AuthError, IntegrityError, UpstreamError and
store-layer wrapper errors). -/
inductive SvcError where
  /-- `Invalid refresh token` from the catch-all of `decryptToken`. -/
  | integrityError
  /-- 404-style errors: user, session payload or refresh token absent. -/
  | notFound
  /-- token verification / missing-claim failures. -/
  | authError
  /-- identity-provider non-success status or missing tokens. -/
  | upstreamError
  /-- store-layer wrapper errors (cache read/write failures). -/
  | storeError
  deriving DecidableEq

/- ## Credential Cipher (`src/utils/aes.ts`) -/

/-- Lower-case hex digit, as produced by `Buffer.toString('hex')`. -/
def hexDigitChar (n : Nat) : Char :=
  if n < 10 then Char.ofNat (48 + n) else Char.ofNat (87 + n)

/-- Two hex characters of one byte. -/
def byteToHex (b : Nat) : List Char :=
  [hexDigitChar (b / 16 % 16), hexDigitChar (b % 16)]

/-- `buffer.toString('hex')`. -/
def bytesToHex (bs : Bytes) : List Char := bs.flatMap byteToHex

/-- Value of one hex character (`Buffer.from(_, 'hex')` accepts both cases). -/
def hexDigitVal? (c : Char) : Option Nat :=
  if 48 ≤ c.toNat ∧ c.toNat ≤ 57 then some (c.toNat - 48)
  else if 97 ≤ c.toNat ∧ c.toNat ≤ 102 then some (c.toNat - 87)
  else if 65 ≤ c.toNat ∧ c.toNat ≤ 70 then some (c.toNat - 55)
  else none

/-- Strict hex decoding: an even number of hex characters.  (Node truncates
trailing garbage instead; every such divergence lands in the failure path of
`decryptToken`, which maps all failures to the same error.) -/
def hexToBytes? : List Char → Option Bytes
  | [] => some []
  | c1 :: c2 :: rest =>
    match hexDigitVal? c1, hexDigitVal? c2, hexToBytes? rest with
    | some h, some l, some bs => some ((16 * h + l) :: bs)
    | _, _, _ => none
  | _ => none

/-- `String.prototype.split(':')` on the character list of the string:
splits at every colon, keeping empty segments. -/
def splitColon : List Char → List (List Char)
  | [] => [[]]
  | c :: rest =>
    match splitColon rest with
    | [] => [[]]
    | s :: ss => if c = ':' then [] :: s :: ss else (c :: s) :: ss

/-- Executable model of the AES-256-GCM keystream at the interface the
repository relies on: a byte of keystream determined by key, IV and stream
position.  The concrete mixing function is a stand-in for AES, which the
source treats as a black-box primitive of the platform library. -/
def keystreamByte (key iv : Bytes) (i : Nat) : Nat :=
  (key.foldl (fun a b => (a * 31 + b) % 256) 7 * 97
    + iv.foldl (fun a b => (a * 37 + b) % 256) 11 * 89 + i * 13) % 256

/-- XOR the keystream onto a buffer starting at stream position `i`.
AES-256-GCM is a stream cipher: ciphertext and plaintext have equal length
and decryption applies the same keystream again. -/
def ksApply (key iv : Bytes) (i : Nat) : Bytes → Bytes
  | [] => []
  | b :: rest => Nat.xor b (keystreamByte key iv i) :: ksApply key iv (i + 1) rest

/-- Executable model of the GCM authentication tag: 16 bytes determined by
key, IV and ciphertext (`cipher.getAuthTag()`). -/
def computeTag (key iv ct : Bytes) : Bytes :=
  let h := (key ++ iv ++ ct).foldl (fun a b => (a * 131 + b + 17) % 256)
    ((iv.length * 59 + ct.length * 101) % 256)
  (List.range 16).map (fun j => (h + j * 23) % 256)

/-- `encryptToken` from `src/utils/aes.ts`: encrypt with a fresh random IV
and return `hex(iv):hex(tag):hex(ciphertext)`.  The IV
(`crypto.randomBytes(iv_length)` in the source) is passed explicitly. -/
def encryptToken (token : Bytes) (encryption_key : Bytes) (iv : Bytes) : String :=
  let encrypted := ksApply encryption_key iv 0 token
  let authTag := computeTag encryption_key iv encrypted
  String.mk (bytesToHex iv ++ ':' :: bytesToHex authTag ++ ':' :: bytesToHex encrypted)

/-- `decryptToken` from `src/utils/aes.ts`: split on colons, take the first
three segments (extra segments are dropped by the JS destructuring), reject
falsy (empty or missing) segments, verify the tag, decrypt.  Every failure
is funnelled into the single catch-all error `Invalid refresh token`. -/
def decryptToken (encryptedToken : String) (encryption_key : Bytes) : Except SvcError Bytes :=
  match splitColon encryptedToken.data with
  | iv :: authTag :: encrypted :: _ =>
    if iv = [] ∨ authTag = [] ∨ encrypted = [] then .error .integrityError
    else
      match hexToBytes? iv, hexToBytes? authTag, hexToBytes? encrypted with
      | some ivB, some tagB, some ctB =>
        if tagB = computeTag encryption_key ivB ctB then
          .ok (ksApply encryption_key ivB 0 ctB)
        else .error .integrityError
      | _, _, _ => .error .integrityError
  | _ => .error .integrityError

/- ### Cipher lemmas -/

theorem hexDigitVal?_hexDigitChar : ∀ n, n < 16 → hexDigitVal? (hexDigitChar n) = some n := by
  decide

theorem hexDigitChar_ne_colon : ∀ n, n < 16 → hexDigitChar n ≠ ':' := by
  decide

theorem byteToHex_ne_colon {b : Nat} {c : Char} (hc : c ∈ byteToHex b) : c ≠ ':' := by
  simp only [byteToHex, List.mem_cons, List.not_mem_nil, or_false] at hc
  rcases hc with rfl | rfl <;>
    exact hexDigitChar_ne_colon _ (Nat.mod_lt _ (by norm_num))

theorem bytesToHex_ne_colon {bs : Bytes} {c : Char} (hc : c ∈ bytesToHex bs) : c ≠ ':' := by
  rcases List.mem_flatMap.mp hc with ⟨b, _, hb⟩
  exact byteToHex_ne_colon hb

theorem bytesToHex_eq_nil_iff {bs : Bytes} : bytesToHex bs = [] ↔ bs = [] := by
  cases bs with
  | nil => simp [bytesToHex]
  | cons b t => simp [bytesToHex, byteToHex]

theorem hexToBytes?_bytesToHex {bs : Bytes} (h : BytesWF bs) :
    hexToBytes? (bytesToHex bs) = some bs := by
  induction bs with
  | nil => rfl
  | cons b t ih =>
    have hb : b < 256 := h b (by simp)
    have ht : BytesWF t := fun x hx => h x (by simp [hx])
    have h1 : b / 16 % 16 < 16 := Nat.mod_lt _ (by norm_num)
    have h2 : b % 16 < 16 := Nat.mod_lt _ (by norm_num)
    have hdiv : b / 16 < 16 := Nat.div_lt_of_lt_mul (by omega)
    have hmod : b / 16 % 16 = b / 16 := Nat.mod_eq_of_lt hdiv
    have e : bytesToHex (b :: t) =
        hexDigitChar (b / 16 % 16) :: hexDigitChar (b % 16) :: bytesToHex t := by
      simp [bytesToHex, byteToHex]
    rw [e]
    show (match hexDigitVal? (hexDigitChar (b / 16 % 16)), hexDigitVal? (hexDigitChar (b % 16)),
        hexToBytes? (bytesToHex t) with
      | some h, some l, some bs => some ((16 * h + l) :: bs)
      | _, _, _ => none) = some (b :: t)
    rw [hexDigitVal?_hexDigitChar _ h1, hexDigitVal?_hexDigitChar _ h2, ih ht]
    have := Nat.div_add_mod b 16
    simp only [hmod]
    simp [this]

theorem splitColon_ne_nil (l : List Char) : splitColon l ≠ [] := by
  cases l with
  | nil => simp [splitColon]
  | cons c rest =>
    simp only [splitColon]
    cases h : splitColon rest with
    | nil => simp
    | cons s ss =>
      by_cases hc : c = ':' <;> simp [hc]

theorem splitColon_append (A : List Char) (hA : ∀ c ∈ A, c ≠ ':') (r : List Char) :
    splitColon (A ++ ':' :: r) = A :: splitColon r := by
  induction A with
  | nil =>
    simp only [List.nil_append, splitColon]
    cases h : splitColon r with
    | nil => exact absurd h (splitColon_ne_nil r)
    | cons s ss => simp
  | cons c A' ih =>
    have hc : c ≠ ':' := hA c (by simp)
    have hA' : ∀ x ∈ A', x ≠ ':' := fun x hx => hA x (by simp [hx])
    show (match splitColon (A' ++ ':' :: r) with
      | [] => [[]]
      | s :: ss => if c = ':' then [] :: s :: ss else (c :: s) :: ss) =
      (c :: A') :: splitColon r
    rw [ih hA']
    simp [hc]

theorem ksApply_ksApply (key iv : Bytes) (i : Nat) (d : Bytes) :
    ksApply key iv i (ksApply key iv i d) = d := by
  induction d generalizing i with
  | nil => rfl
  | cons b t ih =>
    simp only [ksApply, ih]
    have : Nat.xor (Nat.xor b (keystreamByte key iv i)) (keystreamByte key iv i) = b :=
      Nat.xor_cancel_right _ _
    simp [this]

theorem ksApply_length (key iv : Bytes) (i : Nat) (d : Bytes) :
    (ksApply key iv i d).length = d.length := by
  induction d generalizing i with
  | nil => rfl
  | cons b t ih => simp [ksApply, ih]

theorem ksApply_wf {key iv : Bytes} {i : Nat} {d : Bytes} (h : BytesWF d) :
    BytesWF (ksApply key iv i d) := by
  induction d generalizing i with
  | nil => intro b hb; cases hb
  | cons b t ih =>
    intro x hx
    simp only [ksApply, List.mem_cons] at hx
    rcases hx with rfl | hx
    · have hb : b < 256 := h b (by simp)
      have hk : keystreamByte key iv i < 256 := Nat.mod_lt _ (by norm_num)
      have h8 : (256 : Nat) = 2 ^ 8 := by norm_num
      rw [h8] at hb hk ⊢
      exact Nat.xor_lt_two_pow hb hk
    · exact ih (fun y hy => h y (by simp [hy])) x hx

theorem computeTag_wf (key iv ct : Bytes) : BytesWF (computeTag key iv ct) := by
  intro b hb
  simp only [computeTag, List.mem_map] at hb
  rcases hb with ⟨j, _, rfl⟩
  exact Nat.mod_lt _ (by norm_num)

theorem computeTag_ne_nil (key iv ct : Bytes) : computeTag key iv ct ≠ [] := by
  simp [computeTag, List.range_succ]

theorem ksApply_eq_nil_iff {key iv : Bytes} {i : Nat} {d : Bytes} :
    ksApply key iv i d = [] ↔ d = [] := by
  cases d <;> simp [ksApply]

theorem splitColon_no_colon (l : List Char) (h : ∀ c ∈ l, c ≠ ':') :
    splitColon l = [l] := by
  induction l with
  | nil => rfl
  | cons c rest ih =>
    have hc : c ≠ ':' := h c (by simp)
    have hr : ∀ x ∈ rest, x ≠ ':' := fun x hx => h x (by simp [hx])
    show (match splitColon rest with
      | [] => [[]]
      | s :: ss => if c = ':' then [] :: s :: ss else (c :: s) :: ss) = [c :: rest]
    rw [ih hr]
    simp [hc]

theorem hexToBytes?_ne_nil {l : List Char} {bs : Bytes}
    (h : hexToBytes? l = some bs) (hl : l ≠ []) : bs ≠ [] := by
  cases l with
  | nil => exact absurd rfl hl
  | cons c1 t =>
    cases t with
    | nil => simp [hexToBytes?] at h
    | cons c2 r =>
      revert h
      simp only [hexToBytes?]
      cases hexDigitVal? c1 <;> cases hexDigitVal? c2 <;> cases hexToBytes? r <;> simp
      rintro rfl
      simp

/- ### Claim C6: cipher round trip -/

/-- Round-trip core lemma: decryption inverts encryption on non-empty
plaintexts with a non-empty IV. -/
theorem decryptToken_encryptToken (key iv pt : Bytes)
    (hpt : pt ≠ []) (hiv : iv ≠ []) (hivWF : BytesWF iv) (hptWF : BytesWF pt) :
    decryptToken (encryptToken pt key iv) key = .ok pt := by
  have hctWF : BytesWF (ksApply key iv 0 pt) := ksApply_wf hptWF
  have hct : ksApply key iv 0 pt ≠ [] := by
    simpa [ksApply_eq_nil_iff] using hpt
  have hdata : (encryptToken pt key iv).data
      = bytesToHex iv ++ ':' :: bytesToHex (computeTag key iv (ksApply key iv 0 pt))
        ++ ':' :: bytesToHex (ksApply key iv 0 pt) := rfl
  have hciv : ∀ c ∈ bytesToHex iv, c ≠ ':' := fun _ hc => bytesToHex_ne_colon hc
  have hctag : ∀ c ∈ bytesToHex (computeTag key iv (ksApply key iv 0 pt)), c ≠ ':' :=
    fun _ hc => bytesToHex_ne_colon hc
  have hcct : ∀ c ∈ bytesToHex (ksApply key iv 0 pt), c ≠ ':' :=
    fun _ hc => bytesToHex_ne_colon hc
  have hsplit : splitColon (encryptToken pt key iv).data
      = [bytesToHex iv, bytesToHex (computeTag key iv (ksApply key iv 0 pt)),
         bytesToHex (ksApply key iv 0 pt)] := by
    rw [hdata]
    simp only [List.append_assoc, List.cons_append]
    rw [splitColon_append _ hciv _, splitColon_append _ hctag _,
        splitColon_no_colon _ hcct]
  have hne1 : bytesToHex iv ≠ [] := by simpa [bytesToHex_eq_nil_iff] using hiv
  have hne2 : bytesToHex (computeTag key iv (ksApply key iv 0 pt)) ≠ [] := by
    simpa [bytesToHex_eq_nil_iff] using computeTag_ne_nil key iv (ksApply key iv 0 pt)
  have hne3 : bytesToHex (ksApply key iv 0 pt) ≠ [] := by
    simpa [bytesToHex_eq_nil_iff] using hct
  have h1 := hexToBytes?_bytesToHex hivWF
  have h2 := hexToBytes?_bytesToHex (computeTag_wf key iv (ksApply key iv 0 pt))
  have h3 := hexToBytes?_bytesToHex hctWF
  simp [decryptToken, hsplit, hne1, hne2, hne3, h1, h2, h3, ksApply_ksApply]

/-- C6 (amended).  For every non-empty plaintext, non-empty IV and key,
decryption inverts encryption: `decryptToken (encryptToken t k iv) k = t`.
(The claim as stated, for arbitrary plaintexts, fails on the empty
plaintext: see the counterexample below.) -/
theorem aes_roundtrip_nonempty (key iv pt : Bytes)
    (hpt : pt ≠ []) (hiv : iv ≠ []) (hivWF : BytesWF iv) (hptWF : BytesWF pt) :
    decryptToken (encryptToken pt key iv) key = .ok pt :=
  decryptToken_encryptToken key iv pt hpt hiv hivWF hptWF

/-- Concrete key and IV for the cipher claims. -/
def aesKeyC : Bytes := List.replicate 32 7

/-- Concrete 16-byte IV (the source calls `crypto.randomBytes(16)`). -/
def aesIvC : Bytes := List.range 16

/-- C6 counterexample.  The claim quantifies over every plaintext string,
but for the empty plaintext the ciphertext segment of the blob is empty
(GCM is length-preserving), so `decryptToken` rejects the blob with the
IntegrityError instead of returning the empty plaintext. -/
theorem aes_roundtrip_fails_on_empty_plaintext :
    decryptToken (encryptToken [] aesKeyC aesIvC) aesKeyC = .error .integrityError := by
  rfl

/-- C6 witness: the amended round trip evaluated at a concrete input. -/
theorem aes_roundtrip_nonempty_witness :
    decryptToken (encryptToken [104, 105] aesKeyC aesIvC) aesKeyC = .ok [104, 105] :=
  aes_roundtrip_nonempty aesKeyC aesIvC [104, 105] (by decide) (by decide)
    (by decide) (by decide)

/- ### Claim C9: decrypt is fail-closed -/

/-- Exhaustive case analysis of `decryptToken`: it fails with the
IntegrityError or returns the full decryption of a verified blob. -/
theorem decryptToken_cases (blob : String) (key : Bytes) :
    decryptToken blob key = .error .integrityError ∨
    ∃ ivs tags cts rest ivB tagB ctB,
      splitColon blob.data = ivs :: tags :: cts :: rest ∧
      ivs ≠ [] ∧ tags ≠ [] ∧ cts ≠ [] ∧
      hexToBytes? ivs = some ivB ∧ hexToBytes? tags = some tagB ∧
      hexToBytes? cts = some ctB ∧
      tagB = computeTag key ivB ctB ∧
      decryptToken blob key = .ok (ksApply key ivB 0 ctB) := by
  rcases hs : splitColon blob.data with _ | ⟨a, _ | ⟨b, _ | ⟨c, rest⟩⟩⟩
  · left; simp [decryptToken, hs]
  · left; simp [decryptToken, hs]
  · left; simp [decryptToken, hs]
  · by_cases hempty : a = [] ∨ b = [] ∨ c = []
    · left
      simp only [decryptToken, hs]
      rw [if_pos hempty]
    · push_neg at hempty
      obtain ⟨ha, hb, hc⟩ := hempty
      have hne : ¬(a = [] ∨ b = [] ∨ c = []) := by simp [ha, hb, hc]
      rcases hia : hexToBytes? a with _ | ivB
      · left
        simp only [decryptToken, hs]
        rw [if_neg hne, hia]
      · rcases hib : hexToBytes? b with _ | tagB
        · left
          simp only [decryptToken, hs]
          rw [if_neg hne, hia, hib]
        · rcases hic : hexToBytes? c with _ | ctB
          · left
            simp only [decryptToken, hs]
            rw [if_neg hne, hia, hib, hic]
          · by_cases htag : tagB = computeTag key ivB ctB
            · right
              refine ⟨a, b, c, rest, ivB, tagB, ctB, rfl, ha, hb, hc, hia, hib, hic, htag, ?_⟩
              simp only [decryptToken, hs]
              rw [if_neg hne, hia, hib, hic]
              simp [htag]
            · left
              simp only [decryptToken, hs]
              rw [if_neg hne, hia, hib, hic]
              simp [htag]

/-- C9 (amended).  `decryptToken` is fail-closed: on every blob it either
fails with the IntegrityError — in particular whenever the colon-split has
fewer than three segments, one of the first three segments is empty, a
segment is not valid hex, or the authentication tag does not verify — or
the blob carried three well-formed segments whose tag verifies, and the
result is the full decryption of the third segment (never a truncated
value).  Segments after the third are ignored, as the JS destructuring
drops them (this is the one place the original claim fails: see the
counterexample). -/
theorem decryptToken_fail_closed (blob : String) (key : Bytes) :
    decryptToken blob key = .error .integrityError ∨
    ∃ ivs tags cts rest ivB tagB ctB,
      splitColon blob.data = ivs :: tags :: cts :: rest ∧
      ivs ≠ [] ∧ tags ≠ [] ∧ cts ≠ [] ∧
      hexToBytes? ivs = some ivB ∧ hexToBytes? tags = some tagB ∧
      hexToBytes? cts = some ctB ∧
      tagB = computeTag key ivB ctB ∧
      decryptToken blob key = .ok (ksApply key ivB 0 ctB) :=
  decryptToken_cases blob key

/-- C9 counterexample.  The claim as stated demands failure for every blob
that does not consist of exactly three segments; but a blob with a fourth,
trailing segment is accepted: the JS destructuring keeps only the first
three split results, so the extra segment is silently dropped and
decryption succeeds. -/
theorem decryptToken_accepts_extra_segments :
    decryptToken
      (String.mk ((encryptToken [104, 105] aesKeyC aesIvC).data ++ ':' :: ['f', 'f']))
      aesKeyC = .ok [104, 105] ∧
    (splitColon (String.mk ((encryptToken [104, 105] aesKeyC aesIvC).data
        ++ ':' :: ['f', 'f'])).data).length = 4 := by
  constructor <;> rfl

/-- Auxiliary fact used by the rotation claims: a successful decryption is
never empty (the ciphertext segment of an accepted blob is non-empty). -/
theorem decryptToken_ok_ne_nil {blob : String} {key : Bytes} {pt : Bytes}
    (h : decryptToken blob key = .ok pt) : pt ≠ [] := by
  rcases decryptToken_cases blob key with hfail | hok
  · rw [h] at hfail; cases hfail
  · obtain ⟨ivs, tags, cts, rest, ivB, tagB, ctB, _, _, _, hcts, _, _, hic, _, hres⟩ := hok
    rw [h] at hres
    have hpt : pt = ksApply key ivB 0 ctB := by
      injection hres.symm with h1
      exact h1.symm
    have hctB : ctB ≠ [] := hexToBytes?_ne_nil hic hcts
    rw [hpt]
    simpa [ksApply_eq_nil_iff] using hctB

/- ## Cache and datastore model -/

/-- JSON-like values stored in the cache; mirrors the dynamically-typed
objects the service writes with `JSON.stringify` and reads back with
`JSON.parse`. -/
inductive JVal where
  | str (s : String)
  | num (n : Int)
  deriving DecidableEq

/-- A parsed JSON object: association list from field name to value. -/
abbrev JObj := List (String × JVal)

/-- JS property access `o.k`: `none` models `undefined`. -/
def jsField (o : JObj) (k : String) : Option JVal :=
  (o.find? (fun p => p.1 == k)).map (fun p => p.2)

/-- JS truthiness of a possibly-undefined value: `undefined`, the empty
string and the number 0 are falsy. -/
def jsTruthy : Option JVal → Bool
  | none => false
  | some (.str s) => s != ""
  | some (.num n) => n != 0

/-- JS string coercion of a possibly-undefined value, used where the code
passes a dynamically-read field to a typed callee. -/
def jsAsString : Option JVal → String
  | some (.str s) => s
  | some (.num n) => toString n
  | none => "undefined"

/-- Lookup in a string-keyed store. -/
def rlookup {α : Type} (l : List (String × α)) (k : String) : Option α :=
  (l.find? (fun p => p.1 == k)).map (fun p => p.2)

/-- Overwrite (or insert) a key in a string-keyed store, as a cache `SET`. -/
def rset {α : Type} (l : List (String × α)) (k : String) (v : α) :
    List (String × α) :=
  (k, v) :: l.filter (fun p => !(p.1 == k))

/-- The Redis keyspace the service uses: `session:<id>` records with their
remaining TTL in seconds, and `session:<id>:active` liveness markers with
their remaining TTL in milliseconds as `pTTL` reports it (−1 when the key
has no expiry; an absent entry is a missing key, for which `pTTL` would
report −2). -/
structure RedisState where
  sessions : List (String × (JObj × Int))
  markers : List (String × Int)
  deriving DecidableEq

/-- The JSON payload written for a session, exactly the object literal of
`saveUserSessionRedis`. -/
def sessionKeyObj (access_token auth0Id : String) (exp : Int) : JObj :=
  [("accessToken", .str access_token), ("userId", .str auth0Id),
   ("accessExp", .num exp)]

/-- Configuration (`src/config/env.ts`). -/
structure Config where
  /-- `env.TTL`: maximum session lifetime, seconds (default 86400). -/
  TTL : Int
  /-- `env.INACTIVITY_TIMEOUT`: inactivity timeout, seconds (default 900). -/
  INACTIVITY_TIMEOUT : Int
  /-- `env.AUTH0_REFRESH_TOKEN_EXPIRY`: refresh-token lifetime, seconds. -/
  AUTH0_REFRESH_TOKEN_EXPIRY : Int
  /-- `REFRESH_TOKEN_WINDOW` of the refresh helper, milliseconds. -/
  REFRESH_TOKEN_WINDOW : Int
  /-- `env.ENCRYPTION_KEY` (32 bytes). -/
  ENCRYPTION_KEY : Bytes

/-- Per-request environment: clock, entropy and the behaviour of the
external collaborators (JWT decoding and verification, the identity
provider, the provider logout endpoint). -/
structure Env where
  cfg : Config
  /-- `Date.now()`, milliseconds. -/
  nowMs : Int
  /-- `jwt.decode(token).exp` when present and numeric, else `none`
  (a malformed token, whose decode throws, is also modelled as `none`:
  both paths fail the save before any write). -/
  decodeExp : String → Option Int
  /-- whether `verifyAccessToken(token)` resolves. -/
  verifyOk : String → Bool
  /-- the refresh-token grant: `(access_token?, refresh_token?)` of the
  provider response, or an upstream failure.  Refresh tokens are byte
  sequences (they only flow through the cipher). -/
  exchangeRefresh : Bytes → Except SvcError (Option String × Option Bytes)
  /-- `crypto.randomBytes(IV_LENGTH)` for the next encryption. -/
  freshIv : Bytes
  /-- `randomUUID()` for a session created without an explicit id. -/
  freshUuid : String
  /-- whether the `GET /v2/logout` call to the provider succeeds. -/
  auth0LogoutOk : Bool

/- ## Session Store (`src/services/redisService.ts`) -/

/-- `saveUserSessionRedis`: decode the expiry claim of the access token
(`!exp || typeof exp !== 'number'` rejects an absent or non-numeric claim
— and, by JS falsiness, also the numeric value 0), clamp the TTL, write
the session record and the liveness marker. -/
def saveUserSessionRedis (env : Env) (st : RedisState) (auth0Id access_token : String)
    (sessionId? : Option String) : Except SvcError (String × RedisState) :=
  let sessionId := match sessionId? with
    | some s => if s = "" then env.freshUuid else s
    | none => env.freshUuid
  match env.decodeExp access_token with
  | none => .error .authError
  | some exp =>
    if exp = 0 then .error .authError
    else
      let nowSec := env.nowMs / 1000
      let secondsUntilExp := max (exp - nowSec) 1
      let effectiveTtl := max 1 (min env.cfg.TTL secondsUntilExp)
      let sessions1 := rset st.sessions sessionId
        (sessionKeyObj access_token auth0Id exp, effectiveTtl)
      let markers1 := rset st.markers sessionId (env.cfg.INACTIVITY_TIMEOUT * 1000)
      .ok (sessionId, { sessions := sessions1, markers := markers1 })

/-- `getUserSessionRedis`: read the session record (a miss throws, wrapped
into the store-layer error by the catch-all), read the liveness marker,
and lazily extend the sliding window when the marker TTL is below the
180000 ms threshold (or has no expiry). -/
def getUserSessionRedis (env : Env) (st : RedisState) (sessionId : String) :
    Except SvcError ((JObj × Bool) × RedisState) :=
  match rlookup st.sessions sessionId with
  | none => .error .storeError
  | some (sessionData, _ttl) =>
    match rlookup st.markers sessionId with
    | none => .ok ((sessionData, false), st)
    | some ttlMs =>
      if ttlMs = -2 then .ok ((sessionData, false), st)
      else if ttlMs = -1 ∨ ttlMs < 180000 then
        let markers1 := rset st.markers sessionId (env.cfg.INACTIVITY_TIMEOUT * 1000)
        .ok ((sessionData, true), { st with markers := markers1 })
      else .ok ((sessionData, true), st)

/-- `deleteUserSessionRedis`: unlink the session record and the marker;
report whether anything was removed. -/
def deleteUserSessionRedis (st : RedisState) (sessionId : String) :
    Bool × RedisState :=
  let deletedMain := (rlookup st.sessions sessionId).isSome
  let deletedActive := (rlookup st.markers sessionId).isSome
  (deletedMain || deletedActive,
   { sessions := st.sessions.filter (fun p => !(p.1 == sessionId)),
     markers := st.markers.filter (fun p => !(p.1 == sessionId)) })

/- ## Refresh Token Ledger (`src/services/prismaUserService.ts`) -/

/-- A row of the refresh-token ledger table. -/
structure TokenRecord where
  /-- internal user id (`user_id`). -/
  userId : String
  /-- the encrypted token blob (`refreshToken` column). -/
  refreshToken : String
  sessionId : String
  /-- `expiresAt`, milliseconds since the epoch. -/
  expiresAt : Int
  revoked : Bool
  deriving DecidableEq

/-- Full system state: the cache, the ledger table and the users table
(auth0 id to internal id). -/
structure SystemState where
  redis : RedisState
  ledger : List TokenRecord
  users : List (String × String)
  deriving DecidableEq

/-- `getUserIdByAuth0` (`src/utils/userId.ts`): resolve the internal user
id; 404 when the user row is absent. -/
def getUserIdByAuth0 (st : SystemState) (auth0Id : String) : Except SvcError String :=
  match rlookup st.users auth0Id with
  | none => .error .notFound
  | some id => .ok id

/-- The `where` clause of the bulk revocation: same session, same user,
not already revoked. -/
def pairActive (sessionId userID : String) (r : TokenRecord) : Bool :=
  r.sessionId == sessionId && r.userId == userID && !r.revoked

/-- The `where` clause of `fetchRefreshTokenPrisma`: additionally
`expiresAt > now`. -/
def validRecord (sessionId userID : String) (nowMs : Int) (r : TokenRecord) : Bool :=
  pairActive sessionId userID r && decide (nowMs < r.expiresAt)

/-- `updateMany({where: {sessionId, userId, revoked: false}},
{data: {revoked: true}})`. -/
def revokeMatching (sessionId userID : String) (ledger : List TokenRecord) :
    List TokenRecord :=
  ledger.map (fun r =>
    if pairActive sessionId userID r then { r with revoked := true } else r)

/-- `fetchRefreshTokenPrisma`: resolve the user, `findFirst` the
non-revoked unexpired record of the pair (404 when none), decrypt it. -/
def fetchRefreshTokenPrisma (env : Env) (st : SystemState) (sessionId auth0Id : String) :
    Except SvcError Bytes :=
  match getUserIdByAuth0 st auth0Id with
  | .error e => .error e
  | .ok userID =>
    match st.ledger.find? (validRecord sessionId userID env.nowMs) with
    | none => .error .notFound
    | some rec => decryptToken rec.refreshToken env.cfg.ENCRYPTION_KEY

/-- `saveRefreshTokenPrisma`: when a truthy old token is supplied, first
bulk-revoke the non-revoked records of the pair, then insert the newly
encrypted token with the configured lifetime. -/
def saveRefreshTokenPrisma (env : Env) (st : SystemState) (sessionId : String)
    (newRefreshToken : Bytes) (auth0Id : String) (oldRefreshToken : Option Bytes) :
    Except SvcError SystemState :=
  let expiryDate := env.nowMs + env.cfg.AUTH0_REFRESH_TOKEN_EXPIRY * 1000
  match getUserIdByAuth0 st auth0Id with
  | .error e => .error e
  | .ok userID =>
    let ledger1 := match oldRefreshToken with
      | some old => if old = [] then st.ledger else revokeMatching sessionId userID st.ledger
      | none => st.ledger
    let encryptedToken := encryptToken newRefreshToken env.cfg.ENCRYPTION_KEY env.freshIv
    .ok { st with ledger := ledger1 ++
      [{ userId := userID, refreshToken := encryptedToken, sessionId := sessionId,
         expiresAt := expiryDate, revoked := false }] }

/-- `revokeRefreshTokenPrisma`: bulk-revoke all non-revoked records of the
pair (audit trail is kept, rows are never deleted). -/
def revokeRefreshTokenPrisma (st : SystemState) (sessionId auth0Id : String) :
    Except SvcError SystemState :=
  match getUserIdByAuth0 st auth0Id with
  | .error e => .error e
  | .ok userID => .ok { st with ledger := revokeMatching sessionId userID st.ledger }

/- ## Auth service (`src/services/authService.ts`) -/

/-- `logoutService`: fetch the session, then — only when the dynamically
read field `sessionData.user_id` is truthy — revoke the refresh tokens.
The stored JSON object has no `user_id` field (its key is `userId`), so
the read yields `undefined`.  Then delete the session keys and call the
provider logout endpoint; a failure there is rethrown by the outer catch. -/
def logoutService (env : Env) (st : SystemState) (sessionId : String) :
    Except SvcError SystemState :=
  match getUserSessionRedis env st.redis sessionId with
  | .error e => .error e
  | .ok ((sessionData, _active), redis1) =>
    let st1 : SystemState := { st with redis := redis1 }
    let step2 : Except SvcError SystemState :=
      if jsTruthy (jsField sessionData "user_id") then
        revokeRefreshTokenPrisma st1 sessionId (jsAsString (jsField sessionData "user_id"))
      else .ok st1
    match step2 with
    | .error e => .error e
    | .ok st2 =>
      let (_deleted, redis2) := deleteUserSessionRedis st2.redis sessionId
      let st3 : SystemState := { st2 with redis := redis2 }
      if env.auth0LogoutOk then .ok st3 else .error .upstreamError

/-- `refreshTokenService`: fetch the current refresh token, exchange it at
the provider, reject responses missing either token (JS falsiness also
rejects empty tokens), verify the new access token, store the session
under the same id, rotate the ledger record. -/
def refreshTokenService (env : Env) (st : SystemState) (auth0Id sessionId : String) :
    Except SvcError (String × SystemState) :=
  match fetchRefreshTokenPrisma env st sessionId auth0Id with
  | .error e => .error e
  | .ok oldRefreshToken =>
    match env.exchangeRefresh oldRefreshToken with
    | .error e => .error e
    | .ok (access_token?, refresh_token?) =>
      match access_token?, refresh_token? with
      | some access_token, some refresh_token =>
        if access_token = "" ∨ refresh_token = [] then .error .upstreamError
        else if env.verifyOk access_token then
          match saveUserSessionRedis env st.redis auth0Id access_token (some sessionId) with
          | .error e => .error e
          | .ok (_sid, redis1) =>
            match saveRefreshTokenPrisma env { st with redis := redis1 } sessionId
                refresh_token auth0Id (some oldRefreshToken) with
            | .error e => .error e
            | .ok st2 => .ok (access_token, st2)
        else .error .authError
      | _, _ => .error .upstreamError

/- ## Token Refresh Orchestrator (`src/lib/session/refreshAccessToken.ts`) -/

/-- The typed session payload (`src/types/userSession.d.ts`). -/
structure SessionData where
  userId : String
  accessToken : String
  accessExp : Int
  deriving DecidableEq

/-- The result of the refresh helper. -/
structure RefreshOutcome where
  refreshed : Bool
  accessToken : String
  deriving DecidableEq

/-- The body of the `try` block of `maybeRefreshAccessToken`: decide by
`timeLeft = accessExp * 1000 - now` against the refresh window, and run
the rotation when due.  (The model returns the pre-call state on failure;
the claims settled here only concern the returned value on failure
paths.) -/
def maybeRefreshTry (env : Env) (st : SystemState) (sessionId : String)
    (sd : SessionData) : Except SvcError (RefreshOutcome × SystemState) :=
  let expiryTime := sd.accessExp * 1000
  let timeLeft := expiryTime - env.nowMs
  if timeLeft ≤ env.cfg.REFRESH_TOKEN_WINDOW then
    match refreshTokenService env st sd.userId sessionId with
    | .error e => .error e
    | .ok (newAccessToken, st1) => .ok (⟨true, newAccessToken⟩, st1)
  else
    .ok (⟨false, sd.accessToken⟩, st)

/-- `maybeRefreshAccessToken`: the try body with its catch-all, which
gracefully falls back to the existing token on any failure. -/
def maybeRefreshAccessToken (env : Env) (st : SystemState) (sessionId : String)
    (sd : SessionData) : RefreshOutcome × SystemState :=
  match maybeRefreshTry env st sessionId sd with
  | .ok r => r
  | .error _ => (⟨false, sd.accessToken⟩, st)

/- ## Session Validation Gate (`src/lib/session/sessionHandler.ts`) -/

/-- The behaviour of the underlying stores as seen by the gate: the gate
claims quantify over every such behaviour, including failures. -/
structure StoreOps where
  /-- outcome of `getUserSessionRedis(sessionId)`; the payload is `none`
  when the parsed JSON is null-like (the `!sessionData` check). -/
  fetchSession : String → Except SvcError (Option JObj × Bool)
  /-- outcome of `revokeRefreshTokenPrisma(sessionId, userId)`. -/
  revokeTokens : String → String → Except SvcError Unit
  /-- outcome of `deleteUserSessionRedis(sessionId)`. -/
  deleteSession : String → Except SvcError Bool

/-- `sessionStatus` (`src/types/userSession.d.ts`). -/
inductive SessionStatus where
  | NotFound
  | Expired
  | Valid
  deriving DecidableEq

/-- The result record of `getValidSessionOrRevoke`. -/
structure GateResult where
  success : Bool
  code : SessionStatus
  sessionData : Option JObj
  deriving DecidableEq

/-- The body of the `try` block of `getValidSessionOrRevoke`: fetch, then
branch on null payload and on inactivity; the two cleanup sub-steps are
individually try/caught, so their outcomes are ignored. -/
def getValidSessionOrRevokeTry (ops : StoreOps) (sessionId : String) :
    Except SvcError GateResult :=
  match ops.fetchSession sessionId with
  | .error e => .error e
  | .ok (sessionData?, active) =>
    match sessionData? with
    | none => .ok ⟨false, .NotFound, none⟩
    | some sessionData =>
      if !active then
        let _ := ops.revokeTokens sessionId (jsAsString (jsField sessionData "userId"))
        let _ := ops.deleteSession sessionId
        .ok ⟨false, .Expired, none⟩
      else
        .ok ⟨true, .Valid, some sessionData⟩

/-- `getValidSessionOrRevoke`: the try body with its catch-all, which
reports every failure as NotFound (the graceful fallback of the source). -/
def getValidSessionOrRevoke (ops : StoreOps) (sessionId : String) : GateResult :=
  match getValidSessionOrRevokeTry ops sessionId with
  | .ok r => r
  | .error _ => ⟨false, .NotFound, none⟩

/- ## Plan synchronisation (`updateUserPlanService`) -/

/-- An entry of the static `PLAN_MAPPING` table (the table itself lives in
`src/config/planMapping.ts`, outside the provided sources; its concrete
content never matters to the claims, which quantify over the mapping). -/
structure PlanEntry where
  id : String
  roleId : String
  deriving DecidableEq

/-- The gRPC callback payload. -/
structure GrpcResponse where
  success : Bool
  error_message : String
  code : Int
  deriving DecidableEq

/-- Role-management calls issued against the provider; the added role id
is an `Option` because the handler can pass an undefined value where the
callee declares a string. -/
inductive RoleCall where
  | deleteRole (token auth0Id roleId : String)
  | addRole (token auth0Id : String) (roleId : Option String)
  deriving DecidableEq

/-- `String.prototype.split(' ')`, like `splitColon` but at spaces. -/
def splitSpace : List Char → List (List Char)
  | [] => [[]]
  | c :: rest =>
    match splitSpace rest with
    | [] => [[]]
    | s :: ss => if c = ' ' then [] :: s :: ss else (c :: s) :: ss

/-- `authHeader.split(' ')[1]`: the bearer token of the header
(`undefined` coerces through the later verification call; the model uses
the empty string, which only ever reaches the injected verifier). -/
def bearerToken (authHeader : String) : String :=
  String.mk ((splitSpace authHeader.data).getD 1 [])

/-- `authHeader.startsWith('Bearer ')`. -/
def startsWithChars : List Char → List Char → Bool
  | _, [] => true
  | [], _ :: _ => false
  | c :: cs, d :: ds => c == d && startsWithChars cs ds

/-- String version of `startsWithChars`. -/
def startsWithStr (s p : String) : Bool := startsWithChars s.data p.data

/-- Environment of the UpdateUserPlan handler: the metadata header, token
verification, the static mapping, and the outcomes of the DB update, the
management-token lookup and the provider role calls. -/
structure PlanEnv where
  authHeader : Option String
  verifyOk : String → Bool
  mapping : List (String × PlanEntry)
  updatePlanOk : Bool
  cachedMgmtToken : Except SvcError String
  freshMgmtToken : Except SvcError String
  fetchRole : String → String → Except SvcError String
  deleteRoleOk : Bool
  addRoleOk : Bool

/-- `updateUserPlanService` (`src/services/grpcService.ts`): authenticate
the metadata, validate the payload, resolve the new role id from
`PLAN_MAPPING` (`newRoleEntry?.[1].roleId!` — `undefined` when the plan is
unmapped, with the non-null assertion silencing the type checker), update
the plan in the DB, resolve a management token, fetch the current role,
skip when unchanged, otherwise delete the current role and add the new
one.  Returns the callback payload together with the trace of
role-management calls issued. -/
def updateUserPlanService (env : PlanEnv) (auth0_id plan_id _updated_at : String) :
    GrpcResponse × List RoleCall :=
  match env.authHeader with
  | none => (⟨false, "Unauthenticated", 401⟩, [])
  | some authHeader =>
    if !(startsWithStr authHeader "Bearer ") then (⟨false, "Unauthenticated", 401⟩, [])
    else
      let accessToken := bearerToken authHeader
      if !(env.verifyOk accessToken) then (⟨false, "Unauthenticated", 401⟩, [])
      else if auth0_id = "" then (⟨false, "Missing user identifier", 400⟩, [])
      else
        let newRoleEntry := env.mapping.find? (fun p => p.2.id == plan_id)
        let newRoleId : Option String := newRoleEntry.map (fun p => p.2.roleId)
        if !env.updatePlanOk then (⟨false, "Internal server error", 500⟩, [])
        else
          match (match env.cachedMgmtToken with
                 | .ok t => Except.ok t
                 | .error _ => env.freshMgmtToken : Except SvcError String) with
          | .error _ => (⟨false, "Internal server error", 500⟩, [])
          | .ok managementAccessToken =>
            match env.fetchRole managementAccessToken auth0_id with
            | .error _ => (⟨false, "Internal server error", 500⟩, [])
            | .ok currentRole =>
              if newRoleId = some currentRole then (⟨true, "", 200⟩, [])
              else
                let calls1 := [RoleCall.deleteRole managementAccessToken auth0_id currentRole]
                if !env.deleteRoleOk then (⟨false, "Internal server error", 500⟩, calls1)
                else
                  let calls2 := calls1 ++
                    [RoleCall.addRole managementAccessToken auth0_id newRoleId]
                  if !env.addRoleOk then (⟨false, "Internal server error", 500⟩, calls2)
                  else (⟨true, "", 200⟩, calls2)

/- ## Concrete configurations and states for witnesses and counterexamples -/

/-- The default configuration values of `src/config/env.ts`. -/
def cfgC : Config :=
  { TTL := 86400, INACTIVITY_TIMEOUT := 900, AUTH0_REFRESH_TOKEN_EXPIRY := 31557600,
    REFRESH_TOKEN_WINDOW := 60000, ENCRYPTION_KEY := aesKeyC }

/- ## Claim C1: logout and refresh-token revocation -/

/-- Environment for the logout evaluation. -/
def envC1 : Env :=
  { cfg := cfgC, nowMs := 1000000,
    decodeExp := fun _ => some 5000,
    verifyOk := fun _ => true,
    exchangeRefresh := fun _ => .error .upstreamError,
    freshIv := aesIvC, freshUuid := "uuid-1", auth0LogoutOk := true }

/-- A state with one live session (stored under the `userId` key, as
`saveUserSessionRedis` writes it) and one non-revoked ledger record. -/
def stC1 : SystemState :=
  { redis := { sessions := [("s1", (sessionKeyObj "tokA" "auth0|u1" 5000, 3600))],
               markers := [("s1", 500000)] },
    ledger := [{ userId := "U1", refreshToken := "aa:bb:cc", sessionId := "s1",
                 expiresAt := 99999999, revoked := false }],
    users := [("auth0|u1", "U1")] }

/-- C1.  The session record is present and logout succeeds, yet the ledger
is left unchanged: the revocation branch tests `sessionData.user_id`, but
the stored JSON field is named `userId`, so the dynamic read yields
`undefined` and the revocation is skipped for every session.  The
non-revoked record survives the logout. -/
theorem logout_leaves_refresh_token_unrevoked :
    (rlookup stC1.redis.sessions "s1").isSome = true ∧
    (logoutService envC1 stC1 "s1").map (fun st => st.ledger) = .ok stC1.ledger ∧
    stC1.ledger.countP (fun r => !r.revoked) = 1 := by
  decide

/- ## Claim C3: the refresh helper never propagates -/

/-- C3.  Whenever any step inside the try body of the refresh helper
fails — ledger miss, provider failure, missing tokens in the provider
response, verification failure or store write failure are all `.error`
outcomes of `maybeRefreshTry` — the helper returns the fallback
`{refreshed := false, accessToken := session.accessToken}` instead of
propagating the exception. -/
theorem maybeRefresh_catches_all (env : Env) (st : SystemState) (sessionId : String)
    (sd : SessionData) (e : SvcError)
    (h : maybeRefreshTry env st sessionId sd = .error e) :
    maybeRefreshAccessToken env st sessionId sd = (⟨false, sd.accessToken⟩, st) := by
  simp [maybeRefreshAccessToken, h]

/-- Environment for the refresh-failure evaluations: the clock is well
past the access-token expiry, so rotation is due. -/
def envC3 : Env :=
  { cfg := cfgC, nowMs := 1000000,
    decodeExp := fun _ => some 5000,
    verifyOk := fun _ => true,
    exchangeRefresh := fun _ => .error .upstreamError,
    freshIv := aesIvC, freshUuid := "uuid-3", auth0LogoutOk := true }

/-- A state with no users and no ledger records: the refresh attempt fails
at the first step. -/
def stC3 : SystemState := { redis := { sessions := [], markers := [] }, ledger := [], users := [] }

/-- The session under refresh in the C3 witness. -/
def sdC3 : SessionData := { userId := "u3", accessToken := "tokA3", accessExp := 1 }

/-- C3 witness: a concrete failing refresh attempt that returns the
fallback. -/
theorem maybeRefresh_catches_all_witness :
    maybeRefreshAccessToken envC3 stC3 "s3" sdC3 = (⟨false, "tokA3"⟩, stC3) :=
  maybeRefresh_catches_all envC3 stC3 "s3" sdC3 .notFound (by decide)

/- ## Claim C4: a ledger miss is caught, not propagated -/

/-- C4 (amended).  When rotation is due and the Ledger holds no valid
record for the pair, the NotFoundError raised by the fetch is caught by
the catch-all of `maybeRefreshAccessToken`, which returns the fallback
`{refreshed := false, accessToken := session.accessToken}` to its caller
instead of propagating the error. -/
theorem maybeRefresh_swallows_ledger_miss (env : Env) (st : SystemState)
    (sessionId : String) (sd : SessionData)
    (hdue : sd.accessExp * 1000 - env.nowMs ≤ env.cfg.REFRESH_TOKEN_WINDOW)
    (hmiss : fetchRefreshTokenPrisma env st sessionId sd.userId = .error .notFound) :
    maybeRefreshAccessToken env st sessionId sd = (⟨false, sd.accessToken⟩, st) := by
  have htry : maybeRefreshTry env st sessionId sd = .error .notFound := by
    simp [maybeRefreshTry, hdue, refreshTokenService, hmiss]
  simp [maybeRefreshAccessToken, htry]

/-- Environment for the C4 evaluation. -/
def envC4 : Env :=
  { cfg := cfgC, nowMs := 1000000,
    decodeExp := fun _ => some 5000,
    verifyOk := fun _ => true,
    exchangeRefresh := fun _ => .error .upstreamError,
    freshIv := aesIvC, freshUuid := "uuid-4", auth0LogoutOk := true }

/-- A state with a known user but an empty ledger: rotation is due and the
fetch reports NotFound. -/
def stC4 : SystemState :=
  { redis := { sessions := [], markers := [] }, ledger := [], users := [("u4", "U4")] }

/-- The session under refresh in the C4 evaluations. -/
def sdC4 : SessionData := { userId := "u4", accessToken := "tokA4", accessExp := 1 }

/-- C4 counterexample.  Rotation is due and the ledger fetch returns
NotFound, yet `maybeRefreshAccessToken` returns the fallback value
normally — the NotFoundError is not propagated upward, contradicting the
claim. -/
theorem maybeRefresh_notFound_not_propagated :
    fetchRefreshTokenPrisma envC4 stC4 "s4" "u4" = .error .notFound ∧
    sdC4.accessExp * 1000 - envC4.nowMs ≤ envC4.cfg.REFRESH_TOKEN_WINDOW ∧
    maybeRefreshAccessToken envC4 stC4 "s4" sdC4 = (⟨false, "tokA4"⟩, stC4) := by
  decide

/-- C4 witness for the amended claim. -/
theorem maybeRefresh_swallows_ledger_miss_witness :
    maybeRefreshAccessToken envC4 stC4 "s4" sdC4 = (⟨false, "tokA4"⟩, stC4) :=
  maybeRefresh_swallows_ledger_miss envC4 stC4 "s4" sdC4 (by decide) (by decide)

/- ## Claim C5: unmapped plan identifiers -/

/-- C5 (amended).  For a plan identifier with no entry in the static
mapping the handler raises no ConfigError: the new role id resolves to
`undefined` (`none`), and when the DB update, the management-token lookup
and the provider calls succeed, the handler proceeds to the two
role-management calls — deleting the current role and then adding the
undefined role id — and reports success. -/
theorem updateUserPlan_unmapped_no_configError (env : PlanEnv)
    (auth0_id plan_id updated_at hdr mgmtTok currentRole : String)
    (hheader : env.authHeader = some hdr)
    (hbearer : startsWithStr hdr "Bearer " = true)
    (hverify : env.verifyOk (bearerToken hdr) = true)
    (hid : auth0_id ≠ "")
    (hunmapped : env.mapping.find? (fun p => p.2.id == plan_id) = none)
    (hupd : env.updatePlanOk = true)
    (htok : env.cachedMgmtToken = .ok mgmtTok)
    (hrole : env.fetchRole mgmtTok auth0_id = .ok currentRole)
    (hdel : env.deleteRoleOk = true)
    (hadd : env.addRoleOk = true) :
    updateUserPlanService env auth0_id plan_id updated_at =
      (⟨true, "", 200⟩,
       [RoleCall.deleteRole mgmtTok auth0_id currentRole,
        RoleCall.addRole mgmtTok auth0_id none]) := by
  simp [updateUserPlanService, hheader, hbearer, hverify, hid, hunmapped, hupd,
    htok, hrole, hdel, hadd]

/-- Environment for the plan-sync evaluations, with a mapping that has no
entry for the plan under test. -/
def envC5 : PlanEnv :=
  { authHeader := some "Bearer caller-token",
    verifyOk := fun _ => true,
    mapping := [("free", ⟨"plan_free", "role_free"⟩)],
    updatePlanOk := true,
    cachedMgmtToken := .ok "mgmt-token",
    freshMgmtToken := .error .upstreamError,
    fetchRole := fun _ _ => .ok "role_current",
    deleteRoleOk := true,
    addRoleOk := true }

/-- C5 counterexample.  The plan id is unmapped, yet the handler does not
fail with a ConfigError: it reports success and its trace shows both
role-management calls were issued, the second with an undefined role id. -/
theorem updateUserPlan_unmapped_proceeds :
    envC5.mapping.find? (fun p => p.2.id == "plan_unknown") = none ∧
    updateUserPlanService envC5 "auth0|u5" "plan_unknown" "2026-01-01" =
      (⟨true, "", 200⟩,
       [RoleCall.deleteRole "mgmt-token" "auth0|u5" "role_current",
        RoleCall.addRole "mgmt-token" "auth0|u5" none]) := by
  decide

/-- C5 witness for the amended claim. -/
theorem updateUserPlan_unmapped_no_configError_witness :
    updateUserPlanService envC5 "auth0|u5" "plan_x" "2026-01-02" =
      (⟨true, "", 200⟩,
       [RoleCall.deleteRole "mgmt-token" "auth0|u5" "role_current",
        RoleCall.addRole "mgmt-token" "auth0|u5" none]) :=
  updateUserPlan_unmapped_no_configError envC5 "auth0|u5" "plan_x" "2026-01-02"
    "Bearer caller-token" "mgmt-token" "role_current" rfl (by decide) (by decide)
    (by decide) (by decide) rfl rfl rfl rfl rfl

/- ## Claim C7: sliding expiration on fetch -/

/-- The state after a fetch that reset the liveness marker to the full
configured inactivity timeout. -/
def markerReset (env : Env) (st : RedisState) (sessionId : String) : RedisState :=
  { st with markers := rset st.markers sessionId (env.cfg.INACTIVITY_TIMEOUT * 1000) }

/-- C7.  On a fetch of an existing session: when the liveness marker
exists with a remaining TTL below the 180000 ms refresh threshold, the
single fetch resets the marker to the full configured inactivity timeout
and reports active; when the marker is absent, the fetch reports inactive
and leaves the state unchanged, regardless of the session record and its
own TTL. -/
theorem sliding_expiration (env : Env) (st : RedisState) (sessionId : String)
    (obj : JObj) (ttl : Int)
    (hsess : rlookup st.sessions sessionId = some (obj, ttl)) :
    (∀ t, rlookup st.markers sessionId = some t → 0 ≤ t → t < 180000 →
      getUserSessionRedis env st sessionId =
        .ok ((obj, true), markerReset env st sessionId)) ∧
    (rlookup st.markers sessionId = none →
      getUserSessionRedis env st sessionId = .ok ((obj, false), st)) := by
  refine ⟨fun t ht h0 hlt => ?_, fun hnone => ?_⟩
  · simp only [getUserSessionRedis, hsess, ht, markerReset]
    rw [if_neg (by omega : ¬ t = -2), if_pos (Or.inr hlt)]
  · simp [getUserSessionRedis, hsess, hnone]

/-- Environment for the sliding-expiration witness. -/
def envC7 : Env :=
  { cfg := cfgC, nowMs := 1000000,
    decodeExp := fun _ => some 5000,
    verifyOk := fun _ => true,
    exchangeRefresh := fun _ => .error .upstreamError,
    freshIv := aesIvC, freshUuid := "uuid-7", auth0LogoutOk := true }

/-- A state whose liveness marker is 1000 ms from expiry. -/
def stC7 : RedisState :=
  { sessions := [("s7", (sessionKeyObj "tok7" "u7" 99, 50))],
    markers := [("s7", 1000)] }

/-- C7 witness: the marker is reset to the full inactivity timeout and the
fetch reports active. -/
theorem sliding_expiration_witness :
    getUserSessionRedis envC7 stC7 "s7" =
      .ok ((sessionKeyObj "tok7" "u7" 99, true), markerReset envC7 stC7 "s7") :=
  (sliding_expiration envC7 stC7 "s7" (sessionKeyObj "tok7" "u7" 99) 50
    (by decide)).1 1000 (by decide) (by decide) (by decide)

/- ## Claim C8: session creation TTL -/

/-- Clamping identity: the clamp of the source
(`max(1, min(T, max(e - now, 1)))`) equals the clamp the spec states
(`max(1, min(T, e - now))`). -/
theorem ttl_clamp (T a : Int) : max 1 (min T (max a 1)) = max 1 (min T a) := by
  omega

/-- The Redis state written by a successful session create. -/
def sessionWriteResult (env : Env) (st : RedisState) (auth0Id tok sid : String)
    (e ttl : Int) : RedisState :=
  { sessions := rset st.sessions sid (sessionKeyObj tok auth0Id e, ttl),
    markers := rset st.markers sid (env.cfg.INACTIVITY_TIMEOUT * 1000) }

/-- C8 (amended).  A create whose token decodes to a numeric, non-zero
expiry claim writes the session record with
TTL = max(1, min(configuredMaxTtl, exp − now)) — in particular at least
1 — and the liveness marker with the configured inactivity timeout; when
the claim is absent (or non-numeric), the create fails with the AuthError
before writing anything.  (The original claim also covered the numeric
value 0, on which the source fails by JS falsiness: see the
counterexample.) -/
theorem session_create_ttl (env : Env) (st : RedisState) (auth0Id tok sid : String)
    (hsid : sid ≠ "") :
    (∀ e, env.decodeExp tok = some e → e ≠ 0 →
      saveUserSessionRedis env st auth0Id tok (some sid) =
        .ok (sid, sessionWriteResult env st auth0Id tok sid e
          (max 1 (min env.cfg.TTL (e - env.nowMs / 1000)))) ∧
      1 ≤ max 1 (min env.cfg.TTL (e - env.nowMs / 1000))) ∧
    (env.decodeExp tok = none →
      saveUserSessionRedis env st auth0Id tok (some sid) = .error .authError) := by
  refine ⟨fun e he hne => ⟨?_, le_max_left _ _⟩, fun hnone => ?_⟩
  · simp [saveUserSessionRedis, he, hsid, hne, sessionWriteResult, ttl_clamp]
  · simp [saveUserSessionRedis, hnone]

/-- Environment for the session-create evaluations: one token decodes to
the numeric expiry 0, the other to 5000 seconds. -/
def envC8 : Env :=
  { cfg := cfgC, nowMs := 1000000,
    decodeExp := fun t => if t = "tok0" then some 0 else some 5000,
    verifyOk := fun _ => true,
    exchangeRefresh := fun _ => .error .upstreamError,
    freshIv := aesIvC, freshUuid := "uuid-8", auth0LogoutOk := true }

/-- C8 counterexample.  The token decodes to the numeric expiry claim 0,
yet the create fails with the AuthError instead of writing the record:
`!exp` is true for the number 0 in JS. -/
theorem session_create_rejects_zero_exp :
    envC8.decodeExp "tok0" = some 0 ∧
    saveUserSessionRedis envC8 { sessions := [], markers := [] } "u8" "tok0" (some "s8") =
      .error .authError := by
  decide

/-- C8 witness for the amended claim. -/
theorem session_create_ttl_witness :
    saveUserSessionRedis envC8 { sessions := [], markers := [] } "u8" "tok8" (some "s8") =
      .ok ("s8", sessionWriteResult envC8 { sessions := [], markers := [] } "u8" "tok8" "s8"
        5000 (max 1 (min envC8.cfg.TTL (5000 - envC8.nowMs / 1000)))) :=
  ((session_create_ttl envC8 { sessions := [], markers := [] } "u8" "tok8" "s8"
    (by decide)).1 5000 (by decide) (by decide)).1

/- ## Claim C10: the validation gate is total -/

/-- C10.  The gate returns a plain result record for every behaviour of
the underlying stores: a fetch failure of any kind — including the
store-layer wrapper error thrown on a read failure — yields the NotFound
result, exactly the result of a null session payload, so the two are
indistinguishable at the gate interface; an inactive session yields the
Expired result whatever the outcomes of the two cleanup sub-steps; an
active one yields the Valid result carrying the session. -/
theorem gate_total (ops : StoreOps) (sessionId : String) :
    (∀ e, ops.fetchSession sessionId = .error e →
      getValidSessionOrRevoke ops sessionId = ⟨false, .NotFound, none⟩) ∧
    (∀ active, ops.fetchSession sessionId = .ok (none, active) →
      getValidSessionOrRevoke ops sessionId = ⟨false, .NotFound, none⟩) ∧
    (∀ obj, ops.fetchSession sessionId = .ok (some obj, false) →
      getValidSessionOrRevoke ops sessionId = ⟨false, .Expired, none⟩) ∧
    (∀ obj, ops.fetchSession sessionId = .ok (some obj, true) →
      getValidSessionOrRevoke ops sessionId = ⟨true, .Valid, some obj⟩) := by
  refine ⟨fun e he => ?_, fun active he => ?_, fun obj he => ?_, fun obj he => ?_⟩ <;>
    simp [getValidSessionOrRevoke, getValidSessionOrRevokeTry, he]

/-- Store behaviour where the session fetch fails with the store-layer
wrapper error. -/
def opsC10 : StoreOps :=
  { fetchSession := fun _ => .error .storeError,
    revokeTokens := fun _ _ => .error .storeError,
    deleteSession := fun _ => .ok false }

/-- C10 witness: a store read failure surfaces as the NotFound result. -/
theorem gate_total_witness :
    getValidSessionOrRevoke opsC10 "s10" = ⟨false, .NotFound, none⟩ :=
  (gate_total opsC10 "s10").1 .storeError rfl

/- ## Claim C2: the rotation invariant -/

/-- The ledger row inserted by a rotation. -/
def newRecord (env : Env) (sid uid : String) (rb : Bytes) : TokenRecord :=
  { userId := uid, refreshToken := encryptToken rb env.cfg.ENCRYPTION_KEY env.freshIv,
    sessionId := sid, expiresAt := env.nowMs + env.cfg.AUTH0_REFRESH_TOKEN_EXPIRY * 1000,
    revoked := false }

/-- The system state after a successful rotation: the session rewritten in
the cache, the previously active pair records revoked, the new row
appended. -/
def rotatedState (env : Env) (st : SystemState) (sid uid : String) (rb : Bytes)
    (redis1 : RedisState) : SystemState :=
  { redis := redis1,
    ledger := revokeMatching sid uid st.ledger ++ [newRecord env sid uid rb],
    users := st.users }

theorem fetchRefreshTokenPrisma_ok_ne_nil {env : Env} {st : SystemState}
    {sid aid : String} {tok : Bytes}
    (h : fetchRefreshTokenPrisma env st sid aid = .ok tok) : tok ≠ [] := by
  unfold fetchRefreshTokenPrisma at h
  cases huid : getUserIdByAuth0 st aid with
  | error e => simp [huid] at h
  | ok uid =>
    simp only [huid] at h
    cases hfind : st.ledger.find? (validRecord sid uid env.nowMs) with
    | none => simp [hfind] at h
    | some rec =>
      simp only [hfind] at h
      exact decryptToken_ok_ne_nil h

theorem countP_revokeMatching_zero (sid uid : String) (now : Int)
    (l : List TokenRecord) :
    (revokeMatching sid uid l).countP (validRecord sid uid now) = 0 := by
  induction l with
  | nil => rfl
  | cons r t ih =>
    simp only [revokeMatching, List.map_cons, List.countP_cons] at ih ⊢
    by_cases hp : pairActive sid uid r = true
    · have hf : validRecord sid uid now { r with revoked := true } = false := by
        simp [validRecord, pairActive]
      simp [hp, hf, ih]
    · have hp' : pairActive sid uid r = false := by
        cases hb : pairActive sid uid r with
        | false => rfl
        | true => exact absurd hb hp
      have hf : validRecord sid uid now r = false := by
        simp [validRecord, hp']
      simp [hp', hf, ih]

theorem find?_append_left_none {α : Type} (p : α → Bool) (l1 l2 : List α)
    (h : ∀ x ∈ l1, p x = false) : (l1 ++ l2).find? p = l2.find? p := by
  induction l1 with
  | nil => rfl
  | cons a t ih =>
    have ha : p a = false := h a (by simp)
    simp [List.find?, ha, ih (fun x hx => h x (by simp [hx]))]

theorem revokeMatching_mem_of_valid {sid uid : String} {now : Int} {r : TokenRecord}
    {l : List TokenRecord} (hr : r ∈ l) (hv : validRecord sid uid now r = true) :
    { r with revoked := true } ∈ revokeMatching sid uid l := by
  have hp : pairActive sid uid r = true := by
    simp only [validRecord, Bool.and_eq_true] at hv
    exact hv.1
  have hf : (fun x => if pairActive sid uid x then { x with revoked := true } else x) r
      = { r with revoked := true } := by simp [hp]
  have hm := List.mem_map_of_mem
    (fun x => if pairActive sid uid x then { x with revoked := true } else x) hr
  rw [hf] at hm
  exact hm

/-- Inversion of a refresh run that reported a rotation: it fetched the
old token, exchanged it for a truthy pair, verified the new access token,
rewrote the session, and rotated the ledger of the pair. -/
theorem maybeRefresh_rotation_inv (env : Env) (st : SystemState) (sid : String)
    (sd : SessionData) (newTok : String) (st' : SystemState)
    (h : maybeRefreshAccessToken env st sid sd = (⟨true, newTok⟩, st')) :
    ∃ oldTok rb uid redis1 sid2,
      fetchRefreshTokenPrisma env st sid sd.userId = .ok oldTok ∧
      env.exchangeRefresh oldTok = .ok (some newTok, some rb) ∧
      newTok ≠ "" ∧ rb ≠ [] ∧ env.verifyOk newTok = true ∧
      rlookup st.users sd.userId = some uid ∧
      saveUserSessionRedis env st.redis sd.userId newTok (some sid) = .ok (sid2, redis1) ∧
      st' = rotatedState env st sid uid rb redis1 := by
  unfold maybeRefreshAccessToken at h
  cases htry : maybeRefreshTry env st sid sd with
  | error e => rw [htry] at h; simp at h
  | ok r =>
    rw [htry] at h
    subst h
    simp only [maybeRefreshTry] at htry
    split at htry
    case isFalse => simp at htry
    case isTrue hdue =>
      cases hrts : refreshTokenService env st sd.userId sid with
      | error e => simp [hrts] at htry
      | ok p =>
        simp only [hrts] at htry
        obtain ⟨at1, st1⟩ := p
        simp only [Except.ok.injEq, Prod.mk.injEq, RefreshOutcome.mk.injEq, true_and] at htry
        obtain ⟨hat1, hst1⟩ := htry
        subst hat1
        subst hst1
        unfold refreshTokenService at hrts
        cases hfetch : fetchRefreshTokenPrisma env st sid sd.userId with
        | error e => simp [hfetch] at hrts
        | ok oldTok =>
          simp only [hfetch] at hrts
          cases hex : env.exchangeRefresh oldTok with
          | error e => simp [hex] at hrts
          | ok pair =>
            simp only [hex] at hrts
            obtain ⟨aTok?, rTok?⟩ := pair
            cases aTok? with
            | none => cases rTok? <;> simp at hrts
            | some at2 =>
              cases rTok? with
              | none => simp at hrts
              | some rb =>
                dsimp only at hrts
                by_cases hdeg : at2 = "" ∨ rb = []
                · rw [if_pos hdeg] at hrts; simp at hrts
                · rw [if_neg hdeg] at hrts
                  push_neg at hdeg
                  by_cases hver : env.verifyOk at2 = true
                  · rw [if_pos hver] at hrts
                    cases hsave : saveUserSessionRedis env st.redis sd.userId at2 (some sid) with
                    | error e => simp [hsave] at hrts
                    | ok q =>
                      simp only [hsave] at hrts
                      obtain ⟨sid2, redis1⟩ := q
                      cases hsrt : saveRefreshTokenPrisma env { st with redis := redis1 }
                          sid rb sd.userId (some oldTok) with
                      | error e => simp [hsrt] at hrts
                      | ok st2 =>
                        simp only [hsrt, Except.ok.injEq, Prod.mk.injEq] at hrts
                        obtain ⟨hat2, hst2⟩ := hrts
                        subst hat2
                        unfold saveRefreshTokenPrisma at hsrt
                        have hold : oldTok ≠ [] := fetchRefreshTokenPrisma_ok_ne_nil hfetch
                        cases huid : getUserIdByAuth0 { st with redis := redis1 } sd.userId with
                        | error e => simp [huid] at hsrt
                        | ok uid =>
                          simp only [huid, if_neg hold, Except.ok.injEq] at hsrt
                          have huid' : rlookup st.users sd.userId = some uid := by
                            unfold getUserIdByAuth0 at huid
                            cases hlk : rlookup st.users sd.userId with
                            | none =>
                              simp [show ({ st with redis := redis1 } : SystemState).users
                                = st.users from rfl, hlk] at huid
                            | some u =>
                              simp only [show ({ st with redis := redis1 } : SystemState).users
                                = st.users from rfl, hlk, Except.ok.injEq] at huid
                              rw [huid]
                          refine ⟨oldTok, rb, uid, redis1, sid2, rfl, hex, hdeg.1, hdeg.2,
                            hver, huid', hsave, ?_⟩
                          rw [← hst2, ← hsrt]
                          rfl
                  · rw [if_neg hver] at hrts; simp at hrts

/-- C2.  After a `maybeRefresh` run that performed a rotation, the Ledger
holds exactly one valid (non-revoked, unexpired) record for the pair;
`fetchValid` returns it and it decrypts to the refresh token the provider
just issued; and every record that was valid for the pair before the
rotation is now revoked. -/
theorem rotation_invariant (env : Env) (st : SystemState) (sid : String)
    (sd : SessionData) (newTok : String) (st' : SystemState)
    (hrun : maybeRefreshAccessToken env st sid sd = (⟨true, newTok⟩, st'))
    (hivWF : BytesWF env.freshIv) (hiv : env.freshIv ≠ [])
    (hlife : 0 < env.cfg.AUTH0_REFRESH_TOKEN_EXPIRY)
    (horacle : ∀ t p, env.exchangeRefresh t = .ok p →
      ∀ rb, p.2 = some rb → BytesWF rb) :
    ∃ uid rb,
      rlookup st.users sd.userId = some uid ∧
      (∃ oldTok, fetchRefreshTokenPrisma env st sid sd.userId = .ok oldTok ∧
        env.exchangeRefresh oldTok = .ok (some newTok, some rb)) ∧
      st'.ledger.countP (validRecord sid uid env.nowMs) = 1 ∧
      fetchRefreshTokenPrisma env st' sid sd.userId = .ok rb ∧
      (∀ r ∈ st.ledger, validRecord sid uid env.nowMs r = true →
        { r with revoked := true } ∈ st'.ledger) := by
  obtain ⟨oldTok, rb, uid, redis1, sid2, hfetch, hex, hat, hrb, hv, huid, hsave, hst'⟩ :=
    maybeRefresh_rotation_inv env st sid sd newTok st' hrun
  have hrbWF : BytesWF rb := horacle oldTok (some newTok, some rb) hex rb rfl
  have hledger : st'.ledger = revokeMatching sid uid st.ledger ++ [newRecord env sid uid rb] := by
    rw [hst']
    rfl
  have hexp : env.nowMs < env.nowMs + env.cfg.AUTH0_REFRESH_TOKEN_EXPIRY * 1000 := by
    have hpos : 0 < env.cfg.AUTH0_REFRESH_TOKEN_EXPIRY * 1000 := by positivity
    omega
  have hnewValid : validRecord sid uid env.nowMs (newRecord env sid uid rb) = true := by
    simp [validRecord, pairActive, newRecord, hexp]
  have hprefix : ∀ x ∈ revokeMatching sid uid st.ledger,
      validRecord sid uid env.nowMs x = false := by
    intro x hx
    have h0 := countP_revokeMatching_zero sid uid env.nowMs st.ledger
    rw [List.countP_eq_zero] at h0
    cases hbx : validRecord sid uid env.nowMs x with
    | false => rfl
    | true => exact absurd hbx (h0 x hx)
  have husers : st'.users = st.users := by rw [hst']; rfl
  refine ⟨uid, rb, huid, ⟨oldTok, hfetch, hex⟩, ?_, ?_, ?_⟩
  · rw [hledger, List.countP_append, countP_revokeMatching_zero]
    simp [hnewValid]
  · have hfa := find?_append_left_none (validRecord sid uid env.nowMs)
      (revokeMatching sid uid st.ledger) [newRecord env sid uid rb] hprefix
    have hfind : List.find? (validRecord sid uid env.nowMs) [newRecord env sid uid rb]
        = some (newRecord env sid uid rb) := by
      simp [List.find?, hnewValid]
    simp only [fetchRefreshTokenPrisma, getUserIdByAuth0, husers, huid, hledger, hfa, hfind]
    simpa [newRecord] using
      decryptToken_encryptToken env.cfg.ENCRYPTION_KEY env.freshIv rb hrb hiv hivWF hrbWF
  · intro r hr hvr
    rw [hledger]
    exact List.mem_append_left _ (revokeMatching_mem_of_valid hr hvr)

/-- Environment for the rotation witness: the provider exchanges the old
refresh token for a fresh pair, tokens decode and verify. -/
def envC2 : Env :=
  { cfg := cfgC, nowMs := 1000000,
    decodeExp := fun _ => some 5000,
    verifyOk := fun _ => true,
    exchangeRefresh := fun _ => .ok (some "newAT", some [9, 8]),
    freshIv := aesIvC, freshUuid := "uuid-2", auth0LogoutOk := true }

/-- A state with one valid ledger record for the pair, stored encrypted. -/
def stC2 : SystemState :=
  { redis := { sessions := [], markers := [] },
    ledger := [{ userId := "U2", refreshToken := encryptToken [1, 2, 3] aesKeyC aesIvC,
                 sessionId := "s2", expiresAt := 2000000, revoked := false }],
    users := [("u2", "U2")] }

/-- The session under rotation in the C2 witness. -/
def sdC2 : SessionData := { userId := "u2", accessToken := "oldAT", accessExp := 1 }

/-- The state after the witness rotation. -/
def stC2' : SystemState := (maybeRefreshAccessToken envC2 stC2 "s2" sdC2).2

/-- C2 witness: the rotation invariant evaluated on a concrete rotation. -/
theorem rotation_invariant_witness :
    ∃ uid rb,
      rlookup stC2.users sdC2.userId = some uid ∧
      (∃ oldTok, fetchRefreshTokenPrisma envC2 stC2 "s2" sdC2.userId = .ok oldTok ∧
        envC2.exchangeRefresh oldTok = .ok (some "newAT", some rb)) ∧
      stC2'.ledger.countP (validRecord "s2" uid envC2.nowMs) = 1 ∧
      fetchRefreshTokenPrisma envC2 stC2' "s2" sdC2.userId = .ok rb ∧
      (∀ r ∈ stC2.ledger, validRecord "s2" uid envC2.nowMs r = true →
        { r with revoked := true } ∈ stC2'.ledger) :=
  rotation_invariant envC2 stC2 "s2" sdC2 "newAT" stC2'
    (by decide) (by decide) (by decide) (by decide)
    (by
      intro t p hp rb hrb
      rw [show envC2.exchangeRefresh t = .ok (some "newAT", some [9, 8]) from rfl] at hp
      cases hp
      cases hrb
      decide)

end UserService
